import Mathlib

/-
Verification of the Context Assembly and Knowledge Curation subsystem of
dataherald against its specification.

Shallow embedding notes:
- src/dataherald/context_store/default.py (DefaultContextStore) is embedded as
  pure functions; its calls to the two external collaborators (Record
  Repository, Vector Index) are reified as an `Op` trace in program order, and
  the collaborators' state changes are modelled by `applyOp` following the
  capability contracts of spec section 6.
- src/dataherald/types.py entities are embedded as structures.  Python dicts
  used as opaque metadata are modelled as `Option String`; `datetime` fields
  (wall-clock side effects) and `float` fields are omitted since no claim
  depends on them.  Similarity scores are opaque pass-through values modelled
  as `Int`.
- External third-party calls are parameters: sql_metadata's `Parser(sql).tables`
  becomes a `parses : String → Bool` parameter, langchain's
  RecursiveCharacterTextSplitter becomes a `splitter : Nat → Nat → String →
  List String` parameter (invoked by the code at chunk size 1000 / overlap 50),
  and the repository's identifier assignment becomes `idGen : Nat → String`.
-/

namespace Dataherald

/-- Golden-SQL submission request as consumed by
`DefaultContextStore.add_golden_sqls` (default.py lines 71-84): the code reads
the fields `prompt_text`, `sql`, `db_connection_id` and `metadata` off each
record. -/
structure GoldenSQLRequest where
  prompt_text : String
  sql : String
  db_connection_id : String
  metadata : Option String
deriving Repr, DecidableEq

instance : Inhabited GoldenSQLRequest := ⟨⟨"", "", "", none⟩⟩

/-- GoldenSQL entity (types.py lines 53-59); `created_at` omitted. -/
structure GoldenSQL where
  id : Option String := none
  prompt_text : String
  sql : String
  db_connection_id : String
  metadata : Option String := none
deriving Repr, DecidableEq

/-- Instruction entity (types.py lines 38-43); `created_at` omitted. -/
structure Instruction where
  id : Option String := none
  instruction : String
  db_connection_id : String
  metadata : Option String := none
deriving Repr, DecidableEq

/-- Prompt entity (types.py lines 156-161); `created_at` omitted. -/
structure Prompt where
  id : Option String := none
  text : String
  db_connection_id : String
  metadata : Option String := none
deriving Repr, DecidableEq

/-- Modelled from the spec: `ContextFile` is imported by default.py from
dataherald.types but its class definition is missing from src; spec section 3
gives its shape as `{id, file_name, db_connection_id}`. -/
structure ContextFile where
  id : String
  file_name : String
  db_connection_id : String
deriving Repr, DecidableEq

/-- SQLGenerationStatus enum (types.py lines 62-65). -/
inductive SQLGenerationStatus
  | NONE
  | VALID
  | INVALID
deriving Repr, DecidableEq

/-- The string value each SQLGenerationStatus enum member carries
(types.py lines 62-65). -/
def SQLGenerationStatus.toValue : SQLGenerationStatus → String
  | .NONE => "NONE"
  | .VALID => "VALID"
  | .INVALID => "INVALID"

/-- SQLGeneration entity (types.py lines 164-176).  `status` is a plain string
field whose declared default is "INVALID" (line 170).  Optional pydantic
fields without explicit defaults default to none; `created_at`, `completed_at`
(datetimes) and `confidence_score` (float) are omitted, no claim uses them. -/
structure SQLGeneration where
  id : Option String := none
  prompt_id : String
  model : Option String := none
  evaluate : Bool := false
  sql : Option String := none
  status : String := "INVALID"
  tokens_used : Option Nat := none
  error : Option String := none
  metadata : Option String := none
deriving Repr, DecidableEq

/-- Hexadecimal digit check as performed by bson's ObjectId string parsing
(types.py line 17 calls `ObjectId(v)`): a 24-character string is accepted iff
every character is a hex digit, upper- or lowercase. -/
def isHexChar (c : Char) : Bool :=
  (decide ('0' ≤ c) && decide (c ≤ '9')) ||
  (decide ('a' ≤ c) && decide (c ≤ 'f')) ||
  (decide ('A' ≤ c) && decide (c ≤ 'F'))

/-- The validator `object_id_validation` of DBConnectionValidation
(types.py lines 11-20): accepts `v` iff `ObjectId(v)` parses, which for a
string requires exactly 24 hexadecimal characters (either case). -/
def object_id_validation (v : String) : Bool :=
  v.length == 24 && v.toList.all isHexChar

/-- The claim's wording of the identifier format: a 24-character LOWERCASE
hexadecimal object identifier (refinement target, from the spec's words). -/
def isLowercaseHex24 (v : String) : Bool :=
  v.length == 24 &&
    v.toList.all (fun c =>
      (decide ('0' ≤ c) && decide (c ≤ '9')) ||
      (decide ('a' ≤ c) && decide (c ≤ 'f')))

/-- InstructionRequest extends DBConnectionValidation (types.py line 33), so
constructing it runs object_id_validation on its db_connection_id. -/
def instructionRequest_accepts (connId : String) : Bool :=
  object_id_validation connId

/-- GoldenSQLRequest extends DBConnectionValidation (types.py line 46), so
constructing it runs object_id_validation on its db_connection_id. -/
def goldenSQLRequest_accepts (connId : String) : Bool :=
  object_id_validation connId

/-- ScannerRequest extends DBConnectionValidation (types.py line 76), so
constructing it runs object_id_validation on its db_connection_id. -/
def scannerRequest_accepts (connId : String) : Bool :=
  object_id_validation connId

/-- FineTuningRequest (types.py lines 143-148) extends plain BaseModel and
declares `db_connection_id : str` with no validator: construction performs no
identifier-format check at all. -/
def fineTuningRequest_accepts (_connId : String) : Bool :=
  true

/-- One similarity match returned by the Vector Index `query` capability
(spec section 6): `{id, score, metadata}`, where the metadata fields this
subsystem reads are `file_name`, `db_connection_id` and `text`.  The score is
an opaque pass-through value. -/
structure VecMatch where
  id : String
  score : Int
  fileName : String
  connId : String
  text : String
deriving Repr, DecidableEq

/-- A record stored in a vector-index collection: its id plus the metadata
fields this subsystem writes (default.py lines 120-127). -/
structure VecRecord where
  id : String
  fileName : String
  connId : String
  text : String
deriving Repr, DecidableEq

/-- The two collaborator stores as this subsystem observes them (spec
section 6): the Record Repository partitions for golden examples and
instructions, and the Vector Index collections for golden examples and
context-file chunks. -/
structure StoreState where
  goldenRecords : List GoldenSQL
  instructions : List Instruction
  goldenVec : List GoldenSQL
  contextVec : List VecRecord
deriving Repr, DecidableEq

/-- Modelled from the spec: the name of the golden-example collection; the
base-class wiring that fixes it is not under src (spec section 2, glossary). -/
def golden_sql_collection : String := "golden_sql_collection"

/-- Modelled from the spec: the name of the context-file collection; the
base-class wiring that fixes it is not under src (spec section 2, glossary). -/
def context_files_collection : String := "context_files_collection"

/-- Modelled from the spec: Record Repository `find_by_id(id) → entity |
absent` (spec section 6), used by default.py line 40. -/
def findGoldenById (s : StoreState) (id : String) : Option GoldenSQL :=
  s.goldenRecords.find? (fun g => g.id == some id)

/-- Modelled from the spec: Record Repository `delete_by_id(id) →
count_deleted` (spec section 6), used by default.py line 98. -/
def deleteGoldenById (s : StoreState) (id : String) : StoreState × Nat :=
  let remaining := s.goldenRecords.filter (fun g => g.id != some id)
  ({ s with goldenRecords := remaining },
   s.goldenRecords.length - remaining.length)

/-- Modelled from the spec: Vector Index `delete_record(collection, id)` on
the golden collection (spec section 6), used by default.py line 95. -/
def deleteGoldenVec (s : StoreState) (id : String) : StoreState :=
  { s with goldenVec := s.goldenVec.filter (fun g => g.id != some id) }

/-- Modelled from the spec: Vector Index `delete_record_by_metadata` with the
predicate on file_name alone, on the context-file collection: removes every
record whose metadata file_name equals the given name (spec sections 4.3 and
6), used by default.py lines 134-137. -/
def deleteContextVecByFileName (s : StoreState) (name : String) : StoreState :=
  { s with contextVec := s.contextVec.filter (fun r => r.fileName != name) }

/-- A collaborator call emitted by a context-store operation, recorded in
program order. -/
inductive Op
  | queryVec (collection : String) (connId : String) (queryText : String)
      (numResults : Nat)
  | findById (id : String)
  | findAll
  | insertRecord (g : GoldenSQL)
  | addVecRecords (gs : List GoldenSQL) (collection : String)
  | addVecRecord (text : String) (connId : String) (collection : String)
      (fileName : String) (id : String)
  | deleteVecRecord (collection : String) (id : String)
  | deleteRecordById (id : String)
  | deleteVecByMetadata (collection : String) (fileName : String)
deriving Repr, DecidableEq

/-- Whether a collaborator call only reads the stores (the query and find
capabilities of spec section 6). -/
def Op.isRead : Op → Bool
  | .queryVec _ _ _ _ => true
  | .findById _ => true
  | .findAll => true
  | _ => false

/-- Whether a collaborator call is the Record Repository insert. -/
def Op.isInsertRecord : Op → Bool
  | .insertRecord _ => true
  | _ => false

/-- Whether a collaborator call is the batched Vector Index insert. -/
def Op.isAddVecRecords : Op → Bool
  | .addVecRecords _ _ => true
  | _ => false

/-- Modelled from the spec: the state change each collaborator call performs
(spec section 6).  Read capabilities leave both stores unchanged; each write
acts on its store. -/
def applyOp (s : StoreState) : Op → StoreState
  | .queryVec _ _ _ _ => s
  | .findById _ => s
  | .findAll => s
  | .insertRecord g => { s with goldenRecords := s.goldenRecords ++ [g] }
  | .addVecRecords gs _ => { s with goldenVec := s.goldenVec ++ gs }
  | .addVecRecord text connId _ fileName id =>
      { s with contextVec := s.contextVec ++ [⟨id, fileName, connId, text⟩] }
  | .deleteVecRecord _ id =>
      { s with goldenVec := s.goldenVec.filter (fun g => g.id != some id) }
  | .deleteRecordById id =>
      { s with goldenRecords :=
          s.goldenRecords.filter (fun g => g.id != some id) }
  | .deleteVecByMetadata _ fileName =>
      { s with contextVec := s.contextVec.filter (fun r => r.fileName != fileName) }

/-- Applies a trace of collaborator calls to the stores, in order. -/
def applyTrace (s : StoreState) (ops : List Op) : StoreState :=
  ops.foldl applyOp s

/-- A resolved sample dict `{prompt_text, sql, score}` built by
retrieve_context_for_question (default.py lines 42-48). -/
structure Sample where
  prompt_text : String
  sql : String
  score : Int
deriving Repr, DecidableEq

/-- The sample-resolution loop of default.py lines 37-48: for each similarity
match, look the golden record up by id and keep it (with the match's score)
only when the record still exists. -/
def resolvedSamples (s : StoreState) (closestQuestions : List VecMatch) :
    List Sample :=
  closestQuestions.filterMap (fun question =>
    match findGoldenById s question.id with
    | some goldenSql =>
        some ⟨goldenSql.prompt_text, goldenSql.sql, question.score⟩
    | none => none)

/-- The instruction filter of default.py lines 51-60: every stored instruction
whose db_connection_id equals the prompt's, as instruction dicts. -/
def matchingInstructions (s : StoreState) (prompt : Prompt) : List String :=
  (s.instructions.filter
      (fun i => i.db_connection_id == prompt.db_connection_id)).map
    (fun i => i.instruction)

/-- DefaultContextStore.retrieve_context_for_question (default.py lines
26-64).  `closestQuestions` stands for the Vector Index's answer to the
similarity query of lines 30-35 (an external collaborator response, passed as
a parameter); repository reads run against the state.  Empty sample or
instruction lists are replaced by none (lines 49-50 and 61-62). -/
def retrieve_context_for_question (s : StoreState) (prompt : Prompt)
    (closestQuestions : List VecMatch) :
    Option (List Sample) × Option (List String) :=
  let samples := resolvedSamples s closestQuestions
  let samples' := if samples.length = 0 then none else some samples
  let instructions := matchingInstructions s prompt
  let instructions' :=
    if instructions.length = 0 then none else some instructions
  (samples', instructions')

/-- The collaborator calls retrieve_context_for_question makes, in program
order (default.py lines 30-53): one similarity query, one find_by_id per
match, and one find_all over the instructions. -/
def retrieve_context_for_question_trace (prompt : Prompt)
    (closestQuestions : List VecMatch) (numberOfSamples : Nat) : List Op :=
  Op.queryVec golden_sql_collection prompt.db_connection_id prompt.text
      numberOfSamples
    :: (closestQuestions.map (fun question => Op.findById question.id)
        ++ [Op.findAll])

/-- The exception message raised by add_golden_sqls on a parse failure
(default.py lines 75-77, class MalformedGoldenSQLError). -/
def malformedMsg (sql : String) : String :=
  "SQL " ++ sql ++ " is malformed. Please check the syntax."

/-- The golden record built and persisted for one request (default.py lines
78-85); the repository assigns the identifier, modelled by `idGen` applied to
the insertion ordinal. -/
def mkStoredGoldenSQL (idGen : Nat → String) (n : Nat)
    (r : GoldenSQLRequest) : GoldenSQL :=
  { id := some (idGen n), prompt_text := r.prompt_text, sql := r.sql,
    db_connection_id := r.db_connection_id, metadata := r.metadata }

/-- The records add_golden_sqls builds for a run of requests, starting at
insertion ordinal n. -/
def storedFrom (idGen : Nat → String) : Nat → List GoldenSQLRequest →
    List GoldenSQL
  | _, [] => []
  | n, r :: rest => mkStoredGoldenSQL idGen n r :: storedFrom idGen (n + 1) rest

/-- The per-record loop of add_golden_sqls (default.py lines 71-85): each
record is parsed and, when the parse succeeds, immediately persisted via the
repository; a parse failure raises at once, keeping the inserts already
emitted in the trace.  After the loop the batched vector insert of line 87 is
emitted. -/
def addGoldenSqlsLoop (parses : String → Bool) (idGen : Nat → String) :
    List GoldenSQLRequest → Nat → List GoldenSQL → List Op →
    Except String (List GoldenSQL) × List Op
  | [], _, stored, ops =>
      (Except.ok stored, ops ++ [Op.addVecRecords stored golden_sql_collection])
  | r :: rest, n, stored, ops =>
      if parses r.sql then
        addGoldenSqlsLoop parses idGen rest (n + 1)
          (stored ++ [mkStoredGoldenSQL idGen n r])
          (ops ++ [Op.insertRecord (mkStoredGoldenSQL idGen n r)])
      else
        (Except.error (malformedMsg r.sql), ops)

/-- DefaultContextStore.add_golden_sqls (default.py lines 67-88).  `parses`
stands for sql_metadata's `Parser(sql).tables` succeeding (external library);
`idGen` for the repository's identifier assignment.  Returns the
raised-or-returned value together with the trace of collaborator calls. -/
def add_golden_sqls (parses : String → Bool) (idGen : Nat → String)
    (requests : List GoldenSQLRequest) :
    Except String (List GoldenSQL) × List Op :=
  addGoldenSqlsLoop parses idGen requests 0 [] []

/-- The per-id loop of remove_golden_sqls (default.py lines 94-100): delete
from the vector index, then delete the record; an id whose record delete
removed zero rows is collected as a warning.  Returns the final state, the
warning list and the trace. -/
def removeGoldenSqlsAux (s : StoreState) :
    List String → StoreState × List String × List Op
  | [] => (s, [], [])
  | id :: rest =>
      let s1 := deleteGoldenVec s id
      let r2 := deleteGoldenById s1 id
      let rec' := removeGoldenSqlsAux r2.1 rest
      (rec'.1,
       (if r2.2 = 0 then [id] else []) ++ rec'.2.1,
       Op.deleteVecRecord golden_sql_collection id
         :: Op.deleteRecordById id :: rec'.2.2)

/-- DefaultContextStore.remove_golden_sqls (default.py lines 91-101): per id a
vector delete followed by a record delete, a warning when the record delete
reports zero rows, and an unconditional `return True`. -/
def remove_golden_sqls (s : StoreState) (ids : List String) :
    StoreState × List String × List Op × Bool :=
  ((removeGoldenSqlsAux s ids).1,
   (removeGoldenSqlsAux s ids).2.1,
   (removeGoldenSqlsAux s ids).2.2,
   true)

/-- The chunk size hard-coded in add_context_file (default.py line 108). -/
def chunk_size : Nat := 1000

/-- The chunk overlap hard-coded in add_context_file (default.py line 109). -/
def chunk_overlap : Nat := 50

/-- The per-chunk records of the enumerate loop of default.py lines 115-128:
the chunk at ordinal index i gets id `context_file.id + str(i)` and metadata
`{file_name, db_connection_id, text}`. -/
def chunkRecords (file : ContextFile) : Nat → List String → List VecRecord
  | _, [] => []
  | i, t :: ts =>
      { id := file.id ++ toString i, fileName := file.file_name,
        connId := file.db_connection_id, text := t }
        :: chunkRecords file (i + 1) ts

/-- DefaultContextStore.add_context_file (default.py lines 104-129).
`splitter size overlap content` stands for langchain's
RecursiveCharacterTextSplitter (external library); the code constructs it
with chunk_size 1000 and chunk_overlap 50 and adds one vector record per
chunk.  Returns the trace and the returned boolean. -/
def add_context_file (splitter : Nat → Nat → String → List String)
    (file : ContextFile) (content : String) : List Op × Bool :=
  let texts := splitter chunk_size chunk_overlap content
  ((chunkRecords file 0 texts).map (fun r =>
      Op.addVecRecord r.text r.connId context_files_collection r.fileName r.id),
   true)

/-- DefaultContextStore.delete_context_file (default.py lines 132-138): one
metadata-predicate delete on the context-file collection, keyed by file_name
alone, then `return True`. -/
def delete_context_file (s : StoreState) (file : ContextFile) :
    StoreState × List Op × Bool :=
  (deleteContextVecByFileName s file.file_name,
   [Op.deleteVecByMetadata context_files_collection file.file_name],
   true)

/-- DefaultContextStore.retrieve_context_files (default.py lines 141-152):
starting from the empty string, append each match's text metadata followed by
a newline.  `matches` stands for the Vector Index's answer to the similarity
query of lines 143-148. -/
def retrieve_context_files (results : List VecMatch) : String :=
  results.foldl (fun acc m => acc ++ m.text ++ "\n") ""

/-- The spec's reading of retrieve_context_files: the text metadata fields of
the matches newline-SEPARATED (refinement target, from the spec's words). -/
def retrieveContextFilesSpec (results : List VecMatch) : String :=
  String.intercalate "\n" (results.map (fun m => m.text))

/-- Newline-terminated concatenation: each text followed by a newline. -/
def newlineTerminatedConcat : List String → String
  | [] => ""
  | t :: ts => t ++ "\n" ++ newlineTerminatedConcat ts

/-- Counterexample for C2: a SQLGeneration constructed without an explicit
status (types.py line 170) starts with status "INVALID", not "NONE" — the
claimed initial status NONE is wrong on the code. -/
theorem sql_generation_default_status_counterexample :
    ({ prompt_id := "p" } : SQLGeneration).status = "INVALID" ∧
    ({ prompt_id := "p" } : SQLGeneration).status ≠ "NONE" := by
  decide

/-- C2 (amended): SQLGenerationStatus enumerates exactly NONE, VALID and
INVALID, and a SQLGeneration constructed without an explicit status starts
with the string value of INVALID (the declared field default), not NONE. -/
theorem sql_generation_status_values_and_default :
    (∀ st : SQLGenerationStatus,
      st = SQLGenerationStatus.NONE ∨ st = SQLGenerationStatus.VALID ∨
        st = SQLGenerationStatus.INVALID) ∧
    ({ prompt_id := "p" } : SQLGeneration).status =
      SQLGenerationStatus.INVALID.toValue := by
  refine ⟨fun st => ?_, rfl⟩
  cases st
  · exact Or.inl rfl
  · exact Or.inr (Or.inl rfl)
  · exact Or.inr (Or.inr rfl)

/-- Counterexample for C6: object_id_validation accepts the 24-character
UPPERCASE hexadecimal string "507F1F77BCF86CD799439011", which the claim's
lowercase-only format rejects; and FineTuningRequest accepts an arbitrary
db_connection_id with no format check at all (types.py lines 143-148). -/
theorem object_id_validation_counterexample_uppercase :
    object_id_validation "507F1F77BCF86CD799439011" = true ∧
    isLowercaseHex24 "507F1F77BCF86CD799439011" = false ∧
    fineTuningRequest_accepts "totally-invalid-identifier" = true := by
  decide

/-- C6 (amended): object_id_validation accepts v iff v is a 24-character
hexadecimal string with digits of either case; the check runs on the request
types extending DBConnectionValidation (InstructionRequest, GoldenSQLRequest,
ScannerRequest), while FineTuningRequest carries a db_connection_id with no
validation. -/
theorem object_id_validation_hex24_and_request_coverage :
    (∀ v : String, object_id_validation v = true ↔
      (v.length = 24 ∧ v.toList.all isHexChar = true)) ∧
    (∀ v, instructionRequest_accepts v = object_id_validation v) ∧
    (∀ v, goldenSQLRequest_accepts v = object_id_validation v) ∧
    (∀ v, scannerRequest_accepts v = object_id_validation v) ∧
    (∀ v, fineTuningRequest_accepts v = true) := by
  refine ⟨fun v => ?_, fun _ => rfl, fun _ => rfl, fun _ => rfl, fun _ => rfl⟩
  simp [object_id_validation, Bool.and_eq_true]

/-- Helper: the accumulator form of the retrieve_context_files fold. -/
theorem retrieve_context_files_foldl_eq (results : List VecMatch) :
    ∀ acc : String,
      results.foldl (fun a m => a ++ m.text ++ "\n") acc =
        acc ++ newlineTerminatedConcat (results.map (fun m => m.text)) := by
  induction results with
  | nil =>
      intro acc
      simp [newlineTerminatedConcat, String.append_empty]
  | cons m ms ih =>
      intro acc
      simp only [List.foldl_cons, List.map_cons, newlineTerminatedConcat]
      rw [ih]
      simp [String.append_assoc]

/-- Counterexample for C4: on a single match with text "alpha" the code
returns "alpha\n" (each text followed by a newline) while the claimed
newline-SEPARATED concatenation is "alpha"; the two disagree. -/
theorem retrieve_context_files_counterexample_trailing_newline :
    retrieve_context_files
        [{ id := "c1", score := 1, fileName := "f", connId := "d",
           text := "alpha" }] = "alpha\n" ∧
    retrieveContextFilesSpec
        [{ id := "c1", score := 1, fileName := "f", connId := "d",
           text := "alpha" }] = "alpha" ∧
    retrieve_context_files
        [{ id := "c1", score := 1, fileName := "f", connId := "d",
           text := "alpha" }] ≠
      retrieveContextFilesSpec
        [{ id := "c1", score := 1, fileName := "f", connId := "d",
           text := "alpha" }] := by
  decide

/-- C4 (amended): retrieve_context_files returns the concatenation of the
text metadata field of each similarity match EACH FOLLOWED BY a newline
(newline-terminated rather than newline-separated), in similarity-rank order,
and returns the empty string (never a null marker: the return type is a
string) when the query yields no matches. -/
theorem retrieve_context_files_newline_terminated :
    (∀ results : List VecMatch,
      retrieve_context_files results =
        newlineTerminatedConcat (results.map (fun m => m.text))) ∧
    retrieve_context_files [] = "" := by
  constructor
  · intro results
    have h := retrieve_context_files_foldl_eq results ""
    simpa [retrieve_context_files] using h
  · rfl

/-- C9: delete_context_file removes from the context-file collection exactly
the chunks whose metadata file_name equals the file's name — leaving every
other store partition untouched — with no restriction on db_connection_id:
any stored chunk with that file name is removed, whatever connection it
belongs to. -/
theorem delete_context_file_by_filename_only (s : StoreState)
    (file : ContextFile) :
    ((delete_context_file s file).1.contextVec =
      s.contextVec.filter (fun r => r.fileName != file.file_name)) ∧
    ((delete_context_file s file).1.goldenRecords = s.goldenRecords) ∧
    ((delete_context_file s file).1.instructions = s.instructions) ∧
    ((delete_context_file s file).1.goldenVec = s.goldenVec) ∧
    (∀ r ∈ s.contextVec, r.fileName = file.file_name →
      r ∉ (delete_context_file s file).1.contextVec) := by
  refine ⟨rfl, rfl, rfl, rfl, ?_⟩
  intro r _ hname hmem
  have hkeep := List.of_mem_filter hmem
  simp [hname] at hkeep

/-- Witness state for C9: one stored chunk whose file name matches the file
to delete but whose connection id differs. -/
def crossConnChunk : VecRecord :=
  { id := "f10", fileName := "doc.md", connId := "bbbbbbbbbbbbbbbbbbbbbbbb",
    text := "chunk text" }

/-- Witness file for C9: same file name as crossConnChunk, different
connection. -/
def crossConnFile : ContextFile :=
  { id := "f2", file_name := "doc.md",
    db_connection_id := "aaaaaaaaaaaaaaaaaaaaaaaa" }

/-- Witness store for C9. -/
def crossConnState : StoreState :=
  { goldenRecords := [], instructions := [], goldenVec := [],
    contextVec := [crossConnChunk] }

/-- Witness for C9: deleting crossConnFile removes crossConnChunk even though
the chunk belongs to a different connection (only the file name matches). -/
theorem delete_context_file_by_filename_only_witness :
    crossConnChunk ∉
      ((delete_context_file crossConnState crossConnFile).1).contextVec :=
  (delete_context_file_by_filename_only crossConnState crossConnFile).2.2.2.2
    crossConnChunk (by decide) (by decide)

/-- C10: add_context_file always invokes the chunker with the fixed
parameters chunk_size = 1000 and chunk_overlap = 50; the caller of the public
operation cannot influence them — the result depends on the splitter only
through its value at (1000, 50). -/
theorem add_context_file_fixed_chunk_parameters :
    chunk_size = 1000 ∧ chunk_overlap = 50 ∧
    ∀ (splitA splitB : Nat → Nat → String → List String)
      (file : ContextFile) (content : String),
      splitA 1000 50 content = splitB 1000 50 content →
      add_context_file splitA file content =
        add_context_file splitB file content := by
  refine ⟨rfl, rfl, ?_⟩
  intro splitA splitB file content h
  simp only [add_context_file, chunk_size, chunk_overlap, h]

/-- Witness splitter for C10 ignoring its parameters. -/
def paramIgnoringSplit (_size _overlap : Nat) (content : String) :
    List String :=
  [content]

/-- Witness splitter for C10 that branches on its size parameter but agrees
with paramIgnoringSplit at size 1000. -/
def paramBranchingSplit (size _overlap : Nat) (content : String) :
    List String :=
  if size = 0 then [] else [content]

/-- Witness file for C10. -/
def paramWitnessFile : ContextFile :=
  { id := "cf1", file_name := "a.txt",
    db_connection_id := "cccccccccccccccccccccccc" }

/-- Witness for C10: two splitters agreeing at (1000, 50) give the same
add_context_file result. -/
theorem add_context_file_fixed_chunk_parameters_witness :
    add_context_file paramIgnoringSplit paramWitnessFile "hello" =
      add_context_file paramBranchingSplit paramWitnessFile "hello" :=
  add_context_file_fixed_chunk_parameters.2.2 paramIgnoringSplit
    paramBranchingSplit paramWitnessFile "hello" (by decide)

/-- Helper: the ids chunkRecords assigns from ordinal n are the parent id
concatenated with the decimal ordinals n, n+1, ... -/
theorem chunkRecords_map_id (file : ContextFile) :
    ∀ (ts : List String) (n : Nat),
      (chunkRecords file n ts).map (fun r => r.id) =
        (List.range' n ts.length).map (fun i => file.id ++ toString i) := by
  intro ts
  induction ts with
  | nil => intro n; simp [chunkRecords]
  | cons t ts ih => intro n; simp [chunkRecords, List.range'_succ, ih]

/-- Helper: chunkRecords keeps the chunk texts in order. -/
theorem chunkRecords_map_text (file : ContextFile) :
    ∀ (ts : List String) (n : Nat),
      (chunkRecords file n ts).map (fun r => r.text) = ts := by
  intro ts
  induction ts with
  | nil => intro n; simp [chunkRecords]
  | cons t ts ih => intro n; simp [chunkRecords, ih]

/-- C7: each chunk ingested by add_context_file gets the identifier formed
from the parent ContextFile identifier concatenated with its ordinal index,
the chunk texts are kept in order, and the operation is deterministic: any
chunker producing the same chunk sequence for this content at the fixed
parameters yields the identical ordered records with identical derived
identifiers. -/
theorem add_context_file_chunk_ids_deterministic :
    ∀ (splitter : Nat → Nat → String → List String) (file : ContextFile)
      (content : String),
      ((chunkRecords file 0 (splitter chunk_size chunk_overlap content)).map
          (fun r => r.id) =
        (List.range (splitter chunk_size chunk_overlap content).length).map
          (fun i => file.id ++ toString i)) ∧
      ((chunkRecords file 0 (splitter chunk_size chunk_overlap content)).map
          (fun r => r.text) = splitter chunk_size chunk_overlap content) ∧
      (∀ splitter2 : Nat → Nat → String → List String,
        splitter2 chunk_size chunk_overlap content =
          splitter chunk_size chunk_overlap content →
        add_context_file splitter2 file content =
          add_context_file splitter file content) := by
  intro splitter file content
  refine ⟨?_, chunkRecords_map_text file _ 0, ?_⟩
  · rw [List.range_eq_range']
    exact chunkRecords_map_id file _ 0
  · intro splitter2 h
    simp only [add_context_file, h]

/-- Witness splitter for C7 producing two chunks. -/
def twoChunkSplit (_size _overlap : Nat) (content : String) : List String :=
  [content, content]

/-- Witness splitter for C7, syntactically different but equal to
twoChunkSplit at the fixed parameters. -/
def twoChunkSplitAlt (size _overlap : Nat) (content : String) : List String :=
  if size = 0 then [content] else [content, content]

/-- Witness file for C7. -/
def chunkWitnessFile : ContextFile :=
  { id := "cf7", file_name := "b.txt",
    db_connection_id := "dddddddddddddddddddddddd" }

/-- Witness for C7 at a concrete file and content: derived ids, ordered
texts, and determinism across chunkers agreeing at the fixed parameters. -/
theorem add_context_file_chunk_ids_deterministic_witness :
    ((chunkRecords chunkWitnessFile 0
          (twoChunkSplit chunk_size chunk_overlap "hi")).map
        (fun r => r.id) =
      (List.range
          (twoChunkSplit chunk_size chunk_overlap "hi").length).map
        (fun i => chunkWitnessFile.id ++ toString i)) ∧
    ((chunkRecords chunkWitnessFile 0
          (twoChunkSplit chunk_size chunk_overlap "hi")).map
        (fun r => r.text) = twoChunkSplit chunk_size chunk_overlap "hi") ∧
    (add_context_file twoChunkSplitAlt chunkWitnessFile "hi" =
      add_context_file twoChunkSplit chunkWitnessFile "hi") :=
  ⟨(add_context_file_chunk_ids_deterministic twoChunkSplit chunkWitnessFile
      "hi").1,
   (add_context_file_chunk_ids_deterministic twoChunkSplit chunkWitnessFile
      "hi").2.1,
   (add_context_file_chunk_ids_deterministic twoChunkSplit chunkWitnessFile
      "hi").2.2 twoChunkSplitAlt (by decide)⟩

/-- Helper: a trace of read-only collaborator calls leaves the stores
unchanged. -/
theorem applyTrace_of_reads :
    ∀ ops : List Op, ops.all Op.isRead = true →
      ∀ s : StoreState, applyTrace s ops = s := by
  intro ops
  induction ops with
  | nil => intro _ s; rfl
  | cons op ops ih =>
      intro h s
      rw [List.all_cons, Bool.and_eq_true] at h
      have h1 : applyOp s op = s := by
        cases op <;> simp_all [Op.isRead, applyOp]
      show List.foldl applyOp s (op :: ops) = s
      rw [List.foldl_cons, h1]
      exact ih h.2 s

/-- C8: retrieve_context_for_question is read-only — every collaborator call
it emits (the similarity query, the per-match record lookups, the instruction
scan) is a read capability, and applying its whole call trace to any store
state leaves the state unchanged. -/
theorem retrieve_context_for_question_readonly :
    ∀ (s : StoreState) (prompt : Prompt) (qs : List VecMatch) (n : Nat),
      (retrieve_context_for_question_trace prompt qs n).all Op.isRead =
        true ∧
      applyTrace s (retrieve_context_for_question_trace prompt qs n) = s := by
  intro s prompt qs n
  have hall : (retrieve_context_for_question_trace prompt qs n).all
      Op.isRead = true := by
    rw [List.all_eq_true]
    intro x hx
    simp [retrieve_context_for_question_trace] at hx
    rcases hx with rfl | ⟨q, _, rfl⟩ | rfl <;> rfl
  exact ⟨hall, applyTrace_of_reads _ hall s⟩

/-- C3: retrieve_context_for_question yields none — never an empty list — in
the samples position exactly when zero similarity matches resolve to an
existing golden record, and none — never an empty list — in the instructions
position exactly when zero stored instructions carry the prompt's connection
id; when any do, the instructions returned are precisely those selected by
exact connection-id equality over all stored instructions. -/
theorem retrieve_context_none_iff_empty :
    ∀ (s : StoreState) (prompt : Prompt) (qs : List VecMatch),
      ((retrieve_context_for_question s prompt qs).1 ≠ some []) ∧
      ((retrieve_context_for_question s prompt qs).2 ≠ some []) ∧
      ((retrieve_context_for_question s prompt qs).1 = none ↔
        resolvedSamples s qs = []) ∧
      ((retrieve_context_for_question s prompt qs).2 = none ↔
        matchingInstructions s prompt = []) ∧
      ((retrieve_context_for_question s prompt qs).2 = none ∨
        (retrieve_context_for_question s prompt qs).2 =
          some (matchingInstructions s prompt)) := by
  intro s prompt qs
  simp only [retrieve_context_for_question]
  rcases hs : resolvedSamples s qs with _ | ⟨a, as⟩ <;>
    rcases hi : matchingInstructions s prompt with _ | ⟨b, bs⟩ <;>
      simp [hs, hi]

/-- Witness golden record for C3. -/
def witnessGolden : GoldenSQL :=
  { id := some "g1", prompt_text := "show all users",
    sql := "SELECT * FROM users",
    db_connection_id := "507f1f77bcf86cd799439011", metadata := none }

/-- Witness store for C3: one golden record and one instruction on the
prompt's connection. -/
def witnessState3 : StoreState :=
  { goldenRecords := [witnessGolden],
    instructions := [{ id := some "i1", instruction := "prefer views",
                       db_connection_id := "507f1f77bcf86cd799439011",
                       metadata := none }],
    goldenVec := [], contextVec := [] }

/-- Witness prompt for C3. -/
def witnessPrompt3 : Prompt :=
  { id := none, text := "list every user",
    db_connection_id := "507f1f77bcf86cd799439011", metadata := none }

/-- Witness similarity matches for C3: one match resolving to the stored
golden record. -/
def witnessMatches3 : List VecMatch :=
  [{ id := "g1", score := 5, fileName := "", connId :=
      "507f1f77bcf86cd799439011", text := "" }]

/-- Witness for C3 at a concrete store, prompt and match list. -/
theorem retrieve_context_none_iff_empty_witness :
    ((retrieve_context_for_question witnessState3 witnessPrompt3
        witnessMatches3).1 ≠ some []) ∧
    ((retrieve_context_for_question witnessState3 witnessPrompt3
        witnessMatches3).2 ≠ some []) ∧
    ((retrieve_context_for_question witnessState3 witnessPrompt3
        witnessMatches3).1 = none ↔
      resolvedSamples witnessState3 witnessMatches3 = []) ∧
    ((retrieve_context_for_question witnessState3 witnessPrompt3
        witnessMatches3).2 = none ↔
      matchingInstructions witnessState3 witnessPrompt3 = []) ∧
    ((retrieve_context_for_question witnessState3 witnessPrompt3
        witnessMatches3).2 = none ∨
      (retrieve_context_for_question witnessState3 witnessPrompt3
        witnessMatches3).2 =
        some (matchingInstructions witnessState3 witnessPrompt3)) :=
  retrieve_context_none_iff_empty witnessState3 witnessPrompt3 witnessMatches3

/-- Helper: the trace of remove_golden_sqls lists, per id in order, the
vector-index delete followed by the record delete. -/
theorem removeGoldenSqlsAux_trace :
    ∀ (ids : List String) (s : StoreState),
      (removeGoldenSqlsAux s ids).2.2 =
        ids.flatMap (fun id =>
          [Op.deleteVecRecord golden_sql_collection id,
           Op.deleteRecordById id]) := by
  intro ids
  induction ids with
  | nil => intro s; rfl
  | cons id rest ih => intro s; simp [removeGoldenSqlsAux, ih]

/-- Helper: pushing one id-delete filter inside an all-ids filter. -/
theorem filter_ne_then_all {α : Type} [DecidableEq α]
    (l : List α) (key : α → Option String) (id : String)
    (rest : List String) :
    ((l.filter (fun g => key g != some id)).filter
        (fun g => rest.all (fun i => key g != some i))) =
      l.filter (fun g => (id :: rest).all (fun i => key g != some i)) := by
  rw [List.filter_filter]
  apply List.filter_congr
  intro a _
  rw [List.all_cons]
  exact Bool.and_comm _ _

/-- Helper: the state after removeGoldenSqlsAux keeps exactly the golden
records and golden vector entries whose id differs from every removed id, and
leaves instructions and context chunks untouched. -/
theorem removeGoldenSqlsAux_state :
    ∀ (ids : List String) (s : StoreState),
      (removeGoldenSqlsAux s ids).1 =
        { goldenRecords := s.goldenRecords.filter
            (fun g => ids.all (fun i => g.id != some i)),
          instructions := s.instructions,
          goldenVec := s.goldenVec.filter
            (fun g => ids.all (fun i => g.id != some i)),
          contextVec := s.contextVec } := by
  intro ids
  induction ids with
  | nil => intro s; simp [removeGoldenSqlsAux]
  | cons id rest ih =>
      intro s
      simp only [removeGoldenSqlsAux, deleteGoldenVec, deleteGoldenById]
      rw [ih]
      simp only [filter_ne_then_all]

/-- Helper: when no stored golden record carries any of the ids, every
per-id record delete removes zero rows and every id is warned about. -/
theorem removeGoldenSqlsAux_warns_when_absent :
    ∀ (ids : List String) (s : StoreState),
      (∀ g ∈ s.goldenRecords, ∀ id ∈ ids, g.id ≠ some id) →
      (removeGoldenSqlsAux s ids).2.1 = ids := by
  intro ids
  induction ids with
  | nil => intro s _; rfl
  | cons id rest ih =>
      intro s habs
      have hkeep : s.goldenRecords.filter (fun g => g.id != some id) =
          s.goldenRecords := by
        rw [List.filter_eq_self]
        intro g hg
        simpa using habs g hg id (List.mem_cons_self id rest)
      simp only [removeGoldenSqlsAux, deleteGoldenVec, deleteGoldenById,
        hkeep, Nat.sub_self, if_pos rfl]
      have hrest : (removeGoldenSqlsAux
          { s with goldenVec :=
              s.goldenVec.filter (fun g => g.id != some id) } rest).2.1 =
          rest := by
        apply ih
        intro g hg i hi
        exact habs g hg i (List.mem_cons_of_mem id hi)
      rw [hrest]
      rfl

/-- C5: remove_golden_sqls emits, for each id in order, the vector-index
delete first and then the record delete, and returns true once all ids are
processed; it is idempotent — a second call with the same id list leaves the
state exactly as after the first call, still returns true, and merely warns
about every id (each record delete removes zero rows) rather than erroring. -/
theorem remove_golden_sqls_delete_order_true_idempotent :
    ∀ (s : StoreState) (ids : List String),
      ((remove_golden_sqls s ids).2.2.2 = true) ∧
      ((remove_golden_sqls s ids).2.2.1 =
        ids.flatMap (fun id =>
          [Op.deleteVecRecord golden_sql_collection id,
           Op.deleteRecordById id])) ∧
      ((remove_golden_sqls (remove_golden_sqls s ids).1 ids).2.2.2 = true) ∧
      ((remove_golden_sqls (remove_golden_sqls s ids).1 ids).1 =
        (remove_golden_sqls s ids).1) ∧
      ((remove_golden_sqls (remove_golden_sqls s ids).1 ids).2.1 = ids) := by
  intro s ids
  refine ⟨rfl, removeGoldenSqlsAux_trace ids s, rfl, ?_, ?_⟩
  · show (removeGoldenSqlsAux (removeGoldenSqlsAux s ids).1 ids).1 =
      (removeGoldenSqlsAux s ids).1
    rw [removeGoldenSqlsAux_state ids s,
      removeGoldenSqlsAux_state ids _]
    simp only [List.filter_filter]
    congr 1 <;>
      · apply List.filter_congr
        intro a _
        exact Bool.and_self _
  · show (removeGoldenSqlsAux (removeGoldenSqlsAux s ids).1 ids).2.1 = ids
    apply removeGoldenSqlsAux_warns_when_absent
    intro g hg id hid heq
    rw [removeGoldenSqlsAux_state ids s] at hg
    have hall := List.of_mem_filter hg
    rw [List.all_eq_true] at hall
    have := hall id hid
    simp [heq] at this

/-- Helper: when some remaining request fails the parse, the add_golden_sqls
loop raises, the vector insert is never reached, and the trace extends the
accumulated ops with exactly one record insert per valid request before the
first malformed one. -/
theorem addGoldenSqlsLoop_of_any_malformed (parses : String → Bool)
    (idGen : Nat → String) :
    ∀ (rest : List GoldenSQLRequest) (n : Nat) (stored : List GoldenSQL)
      (ops : List Op),
      rest.any (fun r => !parses r.sql) = true →
      ∃ msg, addGoldenSqlsLoop parses idGen rest n stored ops =
        (Except.error msg,
         ops ++ (storedFrom idGen n
            (rest.takeWhile (fun r => parses r.sql))).map
              Op.insertRecord) := by
  intro rest
  induction rest with
  | nil => intro n stored ops h; simp at h
  | cons r rest ih =>
      intro n stored ops h
      cases hp : parses r.sql with
      | false =>
          refine ⟨malformedMsg r.sql, ?_⟩
          simp [addGoldenSqlsLoop, hp, List.takeWhile_cons, storedFrom]
      | true =>
          have hrest : rest.any (fun r => !parses r.sql) = true := by
            simpa [List.any_cons, hp] using h
          obtain ⟨msg, hmsg⟩ := ih (n + 1)
            (stored ++ [mkStoredGoldenSQL idGen n r])
            (ops ++ [Op.insertRecord (mkStoredGoldenSQL idGen n r)]) hrest
          refine ⟨msg, ?_⟩
          simp only [addGoldenSqlsLoop, hp, if_true]
          rw [hmsg]
          simp [List.takeWhile_cons, hp, storedFrom, List.append_assoc]

/-- C1 (amended): for every batch containing at least one request whose SQL
fails the parse, add_golden_sqls raises MalformedGoldenSQLError and inserts
nothing into the vector index, but — validation being interleaved with
record insertion — the records for the valid requests preceding the first
malformed one have already been persisted to the Record Repository: the
trace is exactly one record insert per request of that valid prefix. -/
theorem add_golden_sqls_malformed_aborts_before_vector_insert
    (parses : String → Bool) (idGen : Nat → String)
    (requests : List GoldenSQLRequest)
    (h : requests.any (fun r => !parses r.sql) = true) :
    (∃ msg, (add_golden_sqls parses idGen requests).1 = Except.error msg) ∧
    ((add_golden_sqls parses idGen requests).2.countP Op.isAddVecRecords =
      0) ∧
    ((add_golden_sqls parses idGen requests).2 =
      (storedFrom idGen 0
          (requests.takeWhile (fun r => parses r.sql))).map
        Op.insertRecord) := by
  obtain ⟨msg, hmsg⟩ :=
    addGoldenSqlsLoop_of_any_malformed parses idGen requests 0 [] [] h
  have h1 : (add_golden_sqls parses idGen requests).1 = Except.error msg := by
    rw [add_golden_sqls, hmsg]
  have h2 : (add_golden_sqls parses idGen requests).2 =
      (storedFrom idGen 0
          (requests.takeWhile (fun r => parses r.sql))).map
        Op.insertRecord := by
    rw [add_golden_sqls, hmsg]
    simp
  refine ⟨⟨msg, h1⟩, ?_, h2⟩
  rw [h2, List.countP_eq_zero]
  intro op hop
  obtain ⟨g, _, rfl⟩ := List.mem_map.mp hop
  simp [Op.isAddVecRecords]

/-- Stand-in for sql_metadata's parser in the C1 counterexample: every SQL
text parses except the misspelled one from the spec's own scenario. -/
def scenarioParses (sql : String) : Bool :=
  sql != "SELEKT * FORM users"

/-- Identifier assignment used in the C1 counterexample. -/
def scenarioIdGen (n : Nat) : String :=
  "id" ++ toString n

/-- A well-formed golden-SQL request for the C1 counterexample. -/
def scenarioGoodReq : GoldenSQLRequest :=
  { prompt_text := "show all users", sql := "SELECT * FROM users",
    db_connection_id := "507f1f77bcf86cd799439011", metadata := none }

/-- A malformed golden-SQL request for the C1 counterexample. -/
def scenarioBadReq : GoldenSQLRequest :=
  { prompt_text := "bad request", sql := "SELEKT * FORM users",
    db_connection_id := "507f1f77bcf86cd799439011", metadata := none }

/-- Counterexample for C1: submitting the batch [valid, malformed] raises —
yet exactly one record insert has already been performed, so the record store
is NOT left unchanged and the abort is not all-or-nothing. -/
theorem add_golden_sqls_counterexample_records_persisted :
    ((add_golden_sqls scenarioParses scenarioIdGen
        [scenarioGoodReq, scenarioBadReq]).1.isOk = false) ∧
    ((add_golden_sqls scenarioParses scenarioIdGen
        [scenarioGoodReq, scenarioBadReq]).2.countP Op.isInsertRecord =
      1) := by
  decide

/-- Witness for C1 (amended) at the concrete batch [valid, malformed]. -/
theorem add_golden_sqls_malformed_witness :
    (∃ msg, (add_golden_sqls scenarioParses scenarioIdGen
        [scenarioGoodReq, scenarioBadReq]).1 = Except.error msg) ∧
    ((add_golden_sqls scenarioParses scenarioIdGen
        [scenarioGoodReq, scenarioBadReq]).2.countP Op.isAddVecRecords =
      0) ∧
    ((add_golden_sqls scenarioParses scenarioIdGen
        [scenarioGoodReq, scenarioBadReq]).2 =
      (storedFrom scenarioIdGen 0
          ([scenarioGoodReq, scenarioBadReq].takeWhile
            (fun r => scenarioParses r.sql))).map Op.insertRecord) :=
  add_golden_sqls_malformed_aborts_before_vector_insert scenarioParses
    scenarioIdGen [scenarioGoodReq, scenarioBadReq] (by decide)

end Dataherald
